import Mathlib

/-!
Verification development for the RBF Download Helper (src/main.py).

The program periodically fetches fixed-length time windows of waveform data
and writes each window to a file, persisting a cursor between runs.  We embed
`normal_mode`'s while-loop as a step function on an explicit state, the
startup (resume) logic as a function of the save-file read result, and
`download_waveform`'s filename construction and error handling as pure
functions with the fallible external calls (`client.get_waveforms`,
`st.write`, the save-file `open`) passed in as `Except`-valued inputs.

Timestamps and durations are rational numbers of seconds, mirroring
`UTCDateTime` arithmetic; `config["wait"]` and `config["retry"]` are minutes,
converted to seconds by `* 60` exactly as the source does.
-/

namespace RBF

/-- Timestamps and durations in seconds, as `UTCDateTime` arithmetic yields. -/
abbrev Time := ℚ

/-- The mutable state of `normal_mode`'s loop: the two cursor variables
`start_time` and `end_time`, plus the persisted content of the save file
(`some t` when the first line parses to timestamp `t`, `none` when the file
is absent or unparseable). -/
structure LoopState where
  start_time : Time
  end_time : Time
  saveFile : Option Time
  deriving Repr, DecidableEq

/-- Observable effects of one iteration of the `while True` loop:
the window passed to `download_waveform` (if any), the window committed on
success (if any), the timestamp written to the save file (if any), and the
argument of `time.sleep` in seconds (if the iteration slept). -/
structure StepObs where
  requested : Option (Time × Time)
  committed : Option (Time × Time)
  cursorWrite : Option Time
  sleepSecs : Option Time
  deriving Repr, DecidableEq

/-- One iteration of the `while True` loop of `normal_mode` (src/main.py
lines 78-108).  `D = float(duration) * 60` is the window length in seconds
(`duration = config["wait"]` in minutes) and `R = config["retry"]` in
minutes.  `fetchOk` is the boolean returned by `download_waveform`; `now` is
what `UTCDateTime.now()` returns when this iteration reads the clock.
If a full window is due (`end_time - start_time >= D`) the loop clamps
`end_time := start_time + D`, fetches `[start_time, end_time)`; on success it
writes `end_time` to the save file, sets `start_time := end_time`,
`end_time := now()` and re-enters with no sleep; on failure it sleeps
`retry * 60` seconds leaving the state (with the clamped `end_time`)
untouched.  Otherwise it sleeps `end_time - start_time` seconds and then sets
`end_time := now()`.  The save-file write is modelled as succeeding here;
`loopStepE` below exposes its fallibility. -/
def loopStep (D R : ℚ) (fetchOk : Bool) (now : Time) (s : LoopState) :
    LoopState × StepObs :=
  if s.end_time - s.start_time ≥ D then
    let e := s.start_time + D
    if fetchOk then
      (⟨e, now, some e⟩,
       ⟨some (s.start_time, e), some (s.start_time, e), some e, none⟩)
    else
      (⟨s.start_time, e, s.saveFile⟩,
       ⟨some (s.start_time, e), none, none, some (R * 60)⟩)
  else
    (⟨s.start_time, now, s.saveFile⟩,
     ⟨none, none, none, some (s.end_time - s.start_time)⟩)

/-- Run the loop for one iteration per entry of `inputs`; each entry supplies
the `download_waveform` outcome and the clock value for that iteration.
Returns the final state and the observations in iteration order. -/
def runLoop (D R : ℚ) (s : LoopState) :
    List (Bool × Time) → LoopState × List StepObs
  | [] => (s, [])
  | i :: rest =>
    let p := loopStep D R i.1 i.2 s
    let q := runLoop D R p.1 rest
    (q.1, p.2 :: q.2)

/-- The windows committed (successfully fetched and persisted) along a trace. -/
def committedWindows (obs : List StepObs) : List (Time × Time) :=
  obs.filterMap (fun o => o.committed)

/-- Startup of `normal_mode` (src/main.py lines 64-76): open the save file,
read its first line and parse it with `UTCDateTime`; on success
`start_time = cursor` and `end_time = now()`; on any exception (file absent
or line unparseable) print a message and fall back to `end_time = now()`,
`start_time = end_time - float(duration) * 60`.  `fileLine` is the first
line of the save file (`none` when the file cannot be opened) and `parse`
models the `UTCDateTime` constructor (`none` when it raises). -/
def startupState (parse : String → Option Time) (fileLine : Option String)
    (now D : Time) : LoopState :=
  match fileLine.bind parse with
  | some c => ⟨c, now, some c⟩
  | none => ⟨now - D, now, none⟩

/-- One loop iteration with the fallibility of the success-branch save-file
write exposed: `open(save_file_path, "w")` and the write to it (src/main.py
lines 90-93) are not inside any `try`, so a failure there propagates out of
`normal_mode` as an uncaught exception, modelled as `Except.error`.  A
failure writing the *output* data file happens inside `download_waveform`'s
`try` and is already folded into `fetchOk = false`. -/
def loopStepE (D R : ℚ) (fetchOk cursorWriteOk : Bool) (now : Time)
    (s : LoopState) : Except String (LoopState × StepObs) :=
  if s.end_time - s.start_time ≥ D then
    let e := s.start_time + D
    if fetchOk then
      if cursorWriteOk then
        Except.ok (⟨e, now, some e⟩,
          ⟨some (s.start_time, e), some (s.start_time, e), some e, none⟩)
      else
        Except.error "cannot write save file"
    else
      Except.ok (⟨s.start_time, e, s.saveFile⟩,
        ⟨some (s.start_time, e), none, none, some (R * 60)⟩)
  else
    Except.ok (⟨s.start_time, now, s.saveFile⟩,
      ⟨none, none, none, some (s.end_time - s.start_time)⟩)

/-! ### Fetcher: filename construction and `download_waveform` -/

/-- Python truthiness of the optional run identifier: `None` and the empty
string are falsy, any other string is truthy (`if not optional_id:`). -/
def pyTruthy : Option String → Bool
  | none => false
  | some s => !(s == "")

/-- A wall-clock timestamp at second precision, the granularity used by
`start_time.strftime("%Y%m%d_%H%M%S")`. -/
structure DateTime where
  year : Nat
  month : Nat
  day : Nat
  hour : Nat
  minute : Nat
  second : Nat
  deriving Repr, DecidableEq

/-- Zero-padding to width 2, as the `%m %d %H %M %S` directives produce. -/
def pad2 (n : Nat) : String :=
  if n < 10 then "0" ++ toString n else toString n

/-- Zero-padding to width 4, as `%Y` produces for years in range. -/
def pad4 (n : Nat) : String :=
  if n < 10 then "000" ++ toString n
  else if n < 100 then "00" ++ toString n
  else if n < 1000 then "0" ++ toString n
  else toString n

/-- `strftime("%Y%m%d_%H%M%S")`: the window start formatted to second
precision. -/
def strftimeYmdHMS (t : DateTime) : String :=
  pad4 t.year ++ pad2 t.month ++ pad2 t.day ++ "_" ++
    pad2 t.hour ++ pad2 t.minute ++ pad2 t.second

/-- Output filename construction in `download_waveform` (src/main.py lines
29-38): `RBF_{station}_{start}.msd` when `optional_id` is falsy, otherwise
`RBF_{optional_id}_{start}.msd`. -/
def mkFilename (station : String) (optional_id : Option String)
    (start_time : DateTime) : String :=
  if !(pyTruthy optional_id) then
    "RBF_" ++ station ++ "_" ++ strftimeYmdHMS start_time ++ ".msd"
  else
    "RBF_" ++ optional_id.getD "" ++ "_" ++ strftimeYmdHMS start_time ++ ".msd"

/-- The identifier that reaches the filename: the run identifier when truthy,
else the station selector (the spec's "id_or_station"). -/
def effectiveId (station : String) (optional_id : Option String) : String :=
  if pyTruthy optional_id then optional_id.getD "" else station

/-- The full path `download_waveform` writes to:
`os.path.join(output_dir, filename)` (src/main.py line 40). -/
def downloadFilePath (output_dir station : String)
    (optional_id : Option String) (start_time : DateTime) : String :=
  output_dir ++ "/" ++ mkFilename station optional_id start_time

/-- Opaque waveform block returned by `client.get_waveforms`. -/
structure WaveformBlock where
  tag : Nat
  deriving Repr, DecidableEq

/-- The network/station/location/channel selector tuple. -/
structure Selectors where
  network : String
  station : String
  location : String
  channel : String
  deriving Repr, DecidableEq

/-- `download_waveform` (src/main.py lines 17-49).  The two external calls
that can raise are passed in as `Except`-valued inputs: `getW` models
`client.get_waveforms(...)` for this window and `write` models
`st.write(file_path, format="MSEED")` at a given path.  The body's
`try/except Exception` is the `Except` scrutiny: any failure prints a
diagnostic and returns `false`, success returns `true`; nothing escapes. -/
def download_waveform (start_time end_time : DateTime)
    (getW : Except String WaveformBlock)
    (write : WaveformBlock → String → Except String Unit)
    (output_dir : String) (sel : Selectors)
    (optional_id : Option String) : Bool :=
  match getW with
  | Except.error _ => false
  | Except.ok st =>
    let file_path := downloadFilePath output_dir sel.station optional_id start_time
    match write st file_path with
    | Except.error _ => false
    | Except.ok _ => true

/-! ### Offline mode and process exit status -/

/-- `offline_mode` (src/main.py lines 111-134): one `download_waveform`
call, then a message depending on the outcome; the function's Python return
value is `None` either way.  Modelled as the printed message. -/
def offline_mode_message (success : Bool) : String :=
  if success then "Offline download successful" else "Offline download failed"

/-- `main` in offline mode (src/main.py lines 148-149): it calls
`offline_mode`, discards its `None` result and returns normally, so CPython
exits with status 0.  Result: (process exit status, message printed by
`offline_mode`). -/
def main_offline (success : Bool) : Nat × String :=
  (0, offline_mode_message success)

/-- The spec-side description of a committed trace: `m` consecutive windows
of width `D` starting at `s0`, each beginning where the previous one ended. -/
def windowsFrom (s0 D : Time) : ℕ → List (Time × Time)
  | 0 => []
  | Nat.succ m => (s0, s0 + D) :: windowsFrom (s0 + D) D m

/-- A concrete timestamp parser used to instantiate the startup theorem:
accepts exactly one fixed timestamp string. -/
def demoParse : String → Option Time :=
  fun l => if l = "2024-05-01T00:00:00" then some 42 else none

/-- A write collaborator that always fails (e.g. disk full). -/
def demoWriteFail : WaveformBlock → String → Except String Unit :=
  fun _ _ => Except.error "disk full"

/-- A write collaborator that always succeeds. -/
def demoWriteOk : WaveformBlock → String → Except String Unit :=
  fun _ _ => Except.ok ()

/-! ### Basic step lemmas -/

lemma loopStep_due_success (D R : ℚ) (now : Time) (s : LoopState)
    (h : s.end_time - s.start_time ≥ D) :
    loopStep D R true now s =
      (⟨s.start_time + D, now, some (s.start_time + D)⟩,
       ⟨some (s.start_time, s.start_time + D), some (s.start_time, s.start_time + D),
        some (s.start_time + D), none⟩) := by
  unfold loopStep
  rw [if_pos h]
  rfl

lemma loopStep_due_failure (D R : ℚ) (now : Time) (s : LoopState)
    (h : s.end_time - s.start_time ≥ D) :
    loopStep D R false now s =
      (⟨s.start_time, s.start_time + D, s.saveFile⟩,
       ⟨some (s.start_time, s.start_time + D), none, none, some (R * 60)⟩) := by
  unfold loopStep
  rw [if_pos h]
  rfl

lemma loopStep_not_due (D R : ℚ) (b : Bool) (now : Time) (s : LoopState)
    (h : s.end_time - s.start_time < D) :
    loopStep D R b now s =
      (⟨s.start_time, now, s.saveFile⟩,
       ⟨none, none, none, some (s.end_time - s.start_time)⟩) := by
  unfold loopStep
  rw [if_neg (not_le.mpr h)]

lemma loopStepE_write_ok (D R : ℚ) (f : Bool) (now : Time) (s : LoopState) :
    loopStepE D R f true now s = Except.ok (loopStep D R f now s) := by
  unfold loopStepE loopStep
  by_cases h : s.end_time - s.start_time ≥ D
  · rw [if_pos h, if_pos h]
    cases f <;> rfl
  · rw [if_neg h, if_neg h]

lemma loopStep_false_fix (D R : ℚ) (n : Time) (s : LoopState) :
    (loopStep D R false n s).1.start_time = s.start_time ∧
    (loopStep D R false n s).1.saveFile = s.saveFile := by
  by_cases h : s.end_time - s.start_time ≥ D
  · rw [loopStep_due_failure D R n s h]
    exact ⟨rfl, rfl⟩
  · rw [loopStep_not_due D R false n s (not_le.mp h)]
    exact ⟨rfl, rfl⟩

lemma runLoop_false_fix (D R : ℚ) (nows : List Time) :
    ∀ s : LoopState,
      (runLoop D R s (nows.map fun n => (false, n))).1.start_time = s.start_time ∧
      (runLoop D R s (nows.map fun n => (false, n))).1.saveFile = s.saveFile := by
  induction nows with
  | nil => exact fun s => ⟨rfl, rfl⟩
  | cons n rest ih =>
    intro s
    obtain ⟨h1, h2⟩ := ih (loopStep D R false n s).1
    obtain ⟨g1, g2⟩ := loopStep_false_fix D R n s
    simp only [List.map_cons, runLoop]
    exact ⟨h1.trans g1, h2.trans g2⟩

/-! ### Properties of `windowsFrom` -/

lemma windowsFrom_length (m : ℕ) : ∀ (s0 D : Time),
    (windowsFrom s0 D m).length = m := by
  induction m with
  | zero => intro s0 D; rfl
  | succ m ih =>
    intro s0 D
    simpa [windowsFrom] using ih (s0 + D) D

lemma windowsFrom_width (D : Time) : ∀ (m : ℕ) (s0 : Time) (w : Time × Time),
    w ∈ windowsFrom s0 D m → w.2 = w.1 + D := by
  intro m
  induction m with
  | zero => intro s0 w hw; exact absurd hw (List.not_mem_nil w)
  | succ m ih =>
    intro s0 w hw
    rcases List.mem_cons.mp hw with h | h
    · rw [h]
    · exact ih (s0 + D) w h

lemma windowsFrom_start_le (D : Time) (hD : 0 ≤ D) :
    ∀ (m : ℕ) (s0 : Time) (w : Time × Time),
      w ∈ windowsFrom s0 D m → s0 ≤ w.1 := by
  intro m
  induction m with
  | zero => intro s0 w hw; exact absurd hw (List.not_mem_nil w)
  | succ m ih =>
    intro s0 w hw
    rcases List.mem_cons.mp hw with h | h
    · rw [h]
    · have := ih (s0 + D) w h
      linarith

lemma windowsFrom_chain (D : Time) : ∀ (m : ℕ) (s0 : Time),
    List.Chain' (fun a b => a.2 = b.1) (windowsFrom s0 D m) := by
  intro m
  induction m with
  | zero => intro s0; exact List.chain'_nil
  | succ m ih =>
    intro s0
    rw [windowsFrom]
    refine List.chain'_cons'.mpr ⟨?_, ih (s0 + D)⟩
    intro b hb
    cases m with
    | zero => exact absurd hb (by simp [windowsFrom])
    | succ k =>
      simp only [windowsFrom, List.head?_cons, Option.mem_some_iff] at hb
      rw [← hb]

lemma windowsFrom_pairwise (D : Time) (hD : 0 < D) :
    ∀ (m : ℕ) (s0 : Time),
      List.Pairwise (fun a b => a.1 < b.1) (windowsFrom s0 D m) := by
  intro m
  induction m with
  | zero => intro s0; exact List.Pairwise.nil
  | succ m ih =>
    intro s0
    rw [windowsFrom]
    refine List.pairwise_cons.mpr ⟨?_, ih (s0 + D)⟩
    intro w hw
    have h1 := windowsFrom_start_le D hD.le m (s0 + D) w hw
    show s0 < w.1
    linarith

lemma windowsFrom_mem_iff (D : Time) (hD : 0 < D) :
    ∀ (m : ℕ) (s0 x : Time),
      (∃ w ∈ windowsFrom s0 D m, w.1 ≤ x ∧ x < w.2) ↔
        (s0 ≤ x ∧ x < s0 + (m : ℚ) * D) := by
  intro m
  induction m with
  | zero =>
    intro s0 x
    constructor
    · rintro ⟨w, hw, -⟩
      exact absurd hw (List.not_mem_nil w)
    · rintro ⟨h1, h2⟩
      push_cast at h2
      rw [zero_mul, add_zero] at h2
      exact absurd h1 (not_le.mpr h2)
  | succ m ih =>
    intro s0 x
    rw [windowsFrom]
    constructor
    · rintro ⟨w, hw, hx1, hx2⟩
      rcases List.mem_cons.mp hw with h | h
      · subst h
        have hm0 : (0 : ℚ) ≤ (m : ℚ) * D := mul_nonneg (Nat.cast_nonneg m) hD.le
        refine ⟨hx1, ?_⟩
        push_cast
        have expand : s0 + ((m : ℚ) + 1) * D = s0 + D + (m : ℚ) * D := by ring
        rw [expand]
        have hx2' : x < s0 + D := hx2
        linarith
      · obtain ⟨a, b⟩ := (ih (s0 + D) x).mp ⟨w, h, hx1, hx2⟩
        refine ⟨by linarith, ?_⟩
        push_cast
        have expand : s0 + ((m : ℚ) + 1) * D = s0 + D + (m : ℚ) * D := by ring
        rw [expand]
        exact b
    · rintro ⟨h1, h2⟩
      by_cases hx : x < s0 + D
      · exact ⟨(s0, s0 + D), List.mem_cons_self _ _, h1, hx⟩
      · have h1' : s0 + D ≤ x := not_lt.mp hx
        have h2' : x < s0 + D + (m : ℚ) * D := by
          push_cast at h2
          have expand : s0 + ((m : ℚ) + 1) * D = s0 + D + (m : ℚ) * D := by ring
          rw [expand] at h2
          exact h2
        obtain ⟨w, hw, hx1, hx2⟩ := (ih (s0 + D) x).mpr ⟨h1', h2'⟩
        exact ⟨w, List.mem_cons_of_mem _ hw, hx1, hx2⟩

/-- Along any run, the committed windows form `windowsFrom start D m` for
some `m`: consecutive `D`-wide windows beginning at the initial
`start_time`. -/
lemma runLoop_committed (D R : ℚ) (inps : List (Bool × Time)) :
    ∀ s : LoopState, ∃ m : ℕ,
      committedWindows (runLoop D R s inps).2 = windowsFrom s.start_time D m := by
  induction inps with
  | nil => exact fun s => ⟨0, rfl⟩
  | cons i rest ih =>
    intro s
    rcases i with ⟨b, n⟩
    have hrun : runLoop D R s ((b, n) :: rest) =
        ((runLoop D R (loopStep D R b n s).1 rest).1,
          (loopStep D R b n s).2 :: (runLoop D R (loopStep D R b n s).1 rest).2) := rfl
    by_cases hc : s.end_time - s.start_time ≥ D
    · cases b
      · obtain ⟨m, hm⟩ := ih ⟨s.start_time, s.start_time + D, s.saveFile⟩
        refine ⟨m, ?_⟩
        rw [hrun, loopStep_due_failure D R n s hc]
        exact hm
      · obtain ⟨m, hm⟩ := ih ⟨s.start_time + D, n, some (s.start_time + D)⟩
        refine ⟨m + 1, ?_⟩
        rw [hrun, loopStep_due_success D R n s hc]
        show (s.start_time, s.start_time + D) ::
            committedWindows (runLoop D R ⟨s.start_time + D, n,
              some (s.start_time + D)⟩ rest).2 =
          (s.start_time, s.start_time + D) :: windowsFrom (s.start_time + D) D m
        rw [hm]
    · obtain ⟨m, hm⟩ := ih ⟨s.start_time, n, s.saveFile⟩
      refine ⟨m, ?_⟩
      rw [hrun, loopStep_not_due D R b n s (not_le.mp hc)]
      exact hm

/-- Both branches of the filename construction produce the same shape, with
the effective identifier in the middle. -/
lemma mkFilename_eq (st : String) (oid : Option String) (t : DateTime) :
    mkFilename st oid t =
      "RBF_" ++ effectiveId st oid ++ "_" ++ strftimeYmdHMS t ++ ".msd" := by
  unfold mkFilename effectiveId
  cases hb : pyTruthy oid <;> simp [hb]

/-! ### Claim theorems -/

/-- C1: Coverage invariant of the continuous-mode loop.  Every window handed
to `download_waveform` is exactly `[start_time, start_time + D)` for the
current cursor value (never clamped to `now()`, never longer than `D`), and
along any run the committed windows are the consecutive `D`-wide windows
from the initial `start_time`: each has width `D`, consecutive windows share
an endpoint (no gap, no overlap), starts are strictly increasing, and their
union is the contiguous half-open interval from the initial `start` to the
latest committed end. -/
theorem scheduler_coverage_invariant (D R : ℚ) (hD : 0 < D) (s : LoopState)
    (inps : List (Bool × Time)) :
    (∀ (b : Bool) (now : Time) (s' : LoopState) (w : Time × Time),
        (loopStep D R b now s').2.requested = some w →
        w = (s'.start_time, s'.start_time + D)) ∧
    ∀ ws, ws = committedWindows (runLoop D R s inps).2 →
      ws = windowsFrom s.start_time D ws.length ∧
      (∀ w ∈ ws, w.2 = w.1 + D) ∧
      List.Chain' (fun a b => a.2 = b.1) ws ∧
      List.Pairwise (fun a b => a.1 < b.1) ws ∧
      ∀ x : ℚ, (∃ w ∈ ws, w.1 ≤ x ∧ x < w.2) ↔
        (s.start_time ≤ x ∧ x < s.start_time + (ws.length : ℚ) * D) := by
  constructor
  · intro b now s' w hw
    by_cases hc : s'.end_time - s'.start_time ≥ D
    · cases b
      · rw [loopStep_due_failure D R now s' hc] at hw
        injection hw with h'
        exact h'.symm
      · rw [loopStep_due_success D R now s' hc] at hw
        injection hw with h'
        exact h'.symm
    · rw [loopStep_not_due D R b now s' (not_le.mp hc)] at hw
      exact Option.noConfusion hw
  · intro ws hws
    subst hws
    obtain ⟨m, hm⟩ := runLoop_committed D R inps s
    rw [hm, windowsFrom_length]
    exact ⟨rfl, windowsFrom_width D m s.start_time,
      windowsFrom_chain D m s.start_time,
      windowsFrom_pairwise D hD m s.start_time,
      fun x => windowsFrom_mem_iff D hD m s.start_time x⟩

/-- Witness for C1 at `D = 600`, `R = 300`, initial state
`start = 0, end = 1200`, two successful fetches. -/
theorem scheduler_coverage_invariant_witness :
    (0 : ℚ) < 600 ∧
    ((∀ (b : Bool) (now : Time) (s' : LoopState) (w : Time × Time),
        (loopStep 600 300 b now s').2.requested = some w →
        w = (s'.start_time, s'.start_time + 600)) ∧
     ∀ ws, ws = committedWindows (runLoop 600 300 ⟨0, 1200, none⟩
          [(true, 1200), (true, 1800)]).2 →
       ws = windowsFrom 0 600 ws.length ∧
       (∀ w ∈ ws, w.2 = w.1 + 600) ∧
       List.Chain' (fun a b => a.2 = b.1) ws ∧
       List.Pairwise (fun a b => a.1 < b.1) ws ∧
       ∀ x : ℚ, (∃ w ∈ ws, w.1 ≤ x ∧ x < w.2) ↔
         (0 ≤ x ∧ x < 0 + (ws.length : ℚ) * 600)) :=
  ⟨by norm_num,
   scheduler_coverage_invariant 600 300 (by norm_num) ⟨0, 1200, none⟩
     [(true, 1200), (true, 1800)]⟩

/-- C2: on a successful fetch the Scheduler persists `Cursor = start + D`,
sets `start := start + D`, `end := now()`, and re-enters the loop with no
sleep; on a fresh start with `wait = 10` (`D = 600` s) and `now = T` the
first requested window is `[T - 600, T)` and the persisted cursor after its
success is `T`. -/
theorem success_commit_and_scenarioA (D R : ℚ) (now : Time) (s : LoopState)
    (h : s.end_time - s.start_time ≥ D) :
    loopStep D R true now s =
      (⟨s.start_time + D, now, some (s.start_time + D)⟩,
       ⟨some (s.start_time, s.start_time + D), some (s.start_time, s.start_time + D),
        some (s.start_time + D), none⟩) ∧
    ∀ (parse : String → Option Time) (R' T : ℚ),
      (loopStep 600 R' true T (startupState parse none T 600)).2.requested =
        some (T - 600, T) ∧
      (loopStep 600 R' true T (startupState parse none T 600)).1.saveFile =
        some T := by
  refine ⟨loopStep_due_success D R now s h, ?_⟩
  intro parse R' T
  have hs : startupState parse none T 600 = ⟨T - 600, T, none⟩ := rfl
  have hc : (⟨T - 600, T, none⟩ : LoopState).end_time -
      (⟨T - 600, T, none⟩ : LoopState).start_time ≥ 600 := by
    show T - (T - 600) ≥ 600
    rw [show T - (T - 600) = (600 : ℚ) from by ring]
  rw [hs, loopStep_due_success 600 R' T _ hc]
  constructor
  · show some (T - 600, T - 600 + 600) = some (T - 600, T)
    rw [show T - 600 + 600 = T from by ring]
  · show some (T - 600 + 600) = some T
    rw [show T - 600 + 600 = T from by ring]

/-- Witness for C2 at `D = 600`, `R = 5`, `now = 700`,
state `start = 0, end = 600`. -/
theorem success_commit_and_scenarioA_witness :
    ((⟨0, 600, none⟩ : LoopState).end_time -
        (⟨0, 600, none⟩ : LoopState).start_time ≥ 600) ∧
    (loopStep 600 5 true 700 ⟨0, 600, none⟩ =
      (⟨0 + 600, 700, some (0 + 600)⟩,
       ⟨some (0, 0 + 600), some (0, 0 + 600), some (0 + 600), none⟩) ∧
     ∀ (parse : String → Option Time) (R' T : ℚ),
       (loopStep 600 R' true T (startupState parse none T 600)).2.requested =
         some (T - 600, T) ∧
       (loopStep 600 R' true T (startupState parse none T 600)).1.saveFile =
         some T) :=
  ⟨by show (600 : ℚ) - 0 ≥ 600; norm_num,
   success_commit_and_scenarioA 600 5 700 ⟨0, 600, none⟩
     (by show (600 : ℚ) - 0 ≥ 600; norm_num)⟩

/-- C3: on a failed fetch the Scheduler neither advances `start` nor writes
the save file; it sleeps `R * 60` seconds and retries the same
`[start, start + D)` window.  With an always-failing fetcher the persisted
cursor after any number of iterations equals its initial value, and with
fail-fail-succeed on one window the cursor is written only by the third
call, with two `R`-minute sleeps between the attempts. -/
theorem failure_retries_same_window (D R : ℚ) (now : Time) (s : LoopState)
    (h : s.end_time - s.start_time ≥ D) :
    loopStep D R false now s =
      (⟨s.start_time, s.start_time + D, s.saveFile⟩,
       ⟨some (s.start_time, s.start_time + D), none, none, some (R * 60)⟩) ∧
    (∀ nows : List Time,
      (runLoop D R s (nows.map fun n => (false, n))).1.saveFile = s.saveFile) ∧
    ∀ n1 n2 n3 : Time,
      (runLoop D R s [(false, n1), (false, n2), (true, n3)]).2.map
          (fun o => o.cursorWrite) = [none, none, some (s.start_time + D)] ∧
      (runLoop D R s [(false, n1), (false, n2), (true, n3)]).2.map
          (fun o => o.sleepSecs) = [some (R * 60), some (R * 60), none] ∧
      (runLoop D R s [(false, n1), (false, n2), (true, n3)]).2.map
          (fun o => o.requested) =
        [some (s.start_time, s.start_time + D),
         some (s.start_time, s.start_time + D),
         some (s.start_time, s.start_time + D)] := by
  refine ⟨loopStep_due_failure D R now s h,
    fun nows => (runLoop_false_fix D R nows s).2, ?_⟩
  intro n1 n2 n3
  have hc2 : (⟨s.start_time, s.start_time + D, s.saveFile⟩ : LoopState).end_time -
      (⟨s.start_time, s.start_time + D, s.saveFile⟩ : LoopState).start_time ≥ D := by
    show s.start_time + D - s.start_time ≥ D
    rw [show s.start_time + D - s.start_time = D from by ring]
  have e1 := loopStep_due_failure D R n1 s h
  have e2 := loopStep_due_failure D R n2 ⟨s.start_time, s.start_time + D, s.saveFile⟩ hc2
  have e3 := loopStep_due_success D R n3 ⟨s.start_time, s.start_time + D, s.saveFile⟩ hc2
  simp only [runLoop, e1, e2, e3]
  exact ⟨rfl, rfl, rfl⟩

/-- Witness for C3 at `D = 600`, `R = 5`, `now = 700`,
state `start = 0, end = 600`. -/
theorem failure_retries_same_window_witness :
    ((⟨0, 600, none⟩ : LoopState).end_time -
        (⟨0, 600, none⟩ : LoopState).start_time ≥ 600) ∧
    (loopStep 600 5 false 700 ⟨0, 600, none⟩ =
      (⟨0, 0 + 600, none⟩, ⟨some (0, 0 + 600), none, none, some (5 * 60)⟩) ∧
     (∀ nows : List Time,
       (runLoop 600 5 ⟨0, 600, none⟩ (nows.map fun n => (false, n))).1.saveFile =
         none) ∧
     ∀ n1 n2 n3 : Time,
       (runLoop 600 5 ⟨0, 600, none⟩ [(false, n1), (false, n2), (true, n3)]).2.map
           (fun o => o.cursorWrite) = [none, none, some (0 + 600)] ∧
       (runLoop 600 5 ⟨0, 600, none⟩ [(false, n1), (false, n2), (true, n3)]).2.map
           (fun o => o.sleepSecs) = [some (5 * 60), some (5 * 60), none] ∧
       (runLoop 600 5 ⟨0, 600, none⟩ [(false, n1), (false, n2), (true, n3)]).2.map
           (fun o => o.requested) =
         [some (0, 0 + 600), some (0, 0 + 600), some (0, 0 + 600)]) :=
  ⟨by show (600 : ℚ) - 0 ≥ 600; norm_num,
   failure_retries_same_window 600 5 700 ⟨0, 600, none⟩
     (by show (600 : ℚ) - 0 ≥ 600; norm_num)⟩

/-- C4: startup of continuous mode.  If the save file is present and its
first line parses, the loop starts with `start = Cursor`, `end = now()`;
if it is absent or unparseable this is non-fatal and the loop starts with
`end = now()`, `start = end - D`. -/
theorem startup_resume_or_fresh (parse : String → Option Time) (now D : Time) :
    (∀ (line : String) (c : Time), parse line = some c →
       startupState parse (some line) now D = ⟨c, now, some c⟩) ∧
    startupState parse none now D = ⟨now - D, now, none⟩ ∧
    ∀ line : String, parse line = none →
      startupState parse (some line) now D = ⟨now - D, now, none⟩ := by
  refine ⟨?_, rfl, ?_⟩
  · intro line c hc
    unfold startupState
    have hb : (some line).bind parse = some c := hc
    rw [hb]
  · intro line hc
    unfold startupState
    have hb : (some line).bind parse = none := hc
    rw [hb]

/-- Witness for C4: a parser that accepts exactly one timestamp string,
exercising the parseable, unparseable and absent cases. -/
theorem startup_resume_or_fresh_witness :
    demoParse "2024-05-01T00:00:00" = some 42 ∧
    startupState demoParse (some "2024-05-01T00:00:00") 100 600 =
      ⟨42, 100, some 42⟩ ∧
    demoParse "garbage" = none ∧
    startupState demoParse (some "garbage") 100 600 = ⟨100 - 600, 100, none⟩ ∧
    startupState demoParse none 100 600 = ⟨100 - 600, 100, none⟩ := by
  have h1 : demoParse "2024-05-01T00:00:00" = some 42 := by
    unfold demoParse
    rw [if_pos rfl]
  have h2 : demoParse "garbage" = none := by
    unfold demoParse
    rw [if_neg (by decide)]
  exact ⟨h1, (startup_resume_or_fresh demoParse 100 600).1 _ _ h1, h2,
    (startup_resume_or_fresh demoParse 100 600).2.2 _ h2,
    (startup_resume_or_fresh demoParse 100 600).2.1⟩

/-- C5 counterexample: at `D = 600` and state `start = 0, end = 100`
(`elapsed = 100 < 600`), the loop's sleep is not `D - elapsed = 500`
seconds (it is `elapsed = 100` seconds, see the amended theorem). -/
theorem sleep_not_complement_cex :
    (loopStep 600 5 true 0 ⟨0, 100, none⟩).2.sleepSecs ≠
      some ((600 : ℚ) - (100 - 0)) := by
  rw [loopStep_not_due 600 5 true 0 ⟨0, 100, none⟩
    (by show (100 : ℚ) - 0 < 600; norm_num)]
  intro hcontra
  injection hcontra with h'
  norm_num at h'

/-- C5 amended: whenever `elapsed = end - start < D`, the loop sleeps
exactly `elapsed` seconds (the quantity it also prints), not `D - elapsed`,
and then sets `end := now()` and re-evaluates. -/
theorem sleep_elapsed_when_not_due (D R : ℚ) (b : Bool) (now : Time)
    (s : LoopState) (h : s.end_time - s.start_time < D) :
    loopStep D R b now s =
      (⟨s.start_time, now, s.saveFile⟩,
       ⟨none, none, none, some (s.end_time - s.start_time)⟩) :=
  loopStep_not_due D R b now s h

/-- Witness for C5 amended at `D = 600`, state `start = 0, end = 100`. -/
theorem sleep_elapsed_when_not_due_witness :
    ((⟨0, 100, none⟩ : LoopState).end_time -
        (⟨0, 100, none⟩ : LoopState).start_time < 600) ∧
    loopStep 600 5 true 999 ⟨0, 100, none⟩ =
      (⟨0, 999, none⟩, ⟨none, none, none, some (100 - 0)⟩) :=
  ⟨by show (100 : ℚ) - 0 < 600; norm_num,
   sleep_elapsed_when_not_due 600 5 true 999 ⟨0, 100, none⟩
     (by show (100 : ℚ) - 0 < 600; norm_num)⟩

/-- C6: `download_waveform` never lets a failure escape: a failing
`get_waveforms` call yields `false`, a failing file write yields `false`,
and a fully successful call yields `true` — the caller only ever observes a
boolean. -/
theorem download_waveform_never_raises (t1 t2 : DateTime)
    (write : WaveformBlock → String → Except String Unit)
    (output_dir : String) (sel : Selectors) (oid : Option String) :
    (∀ e : String,
       download_waveform t1 t2 (Except.error e) write output_dir sel oid = false) ∧
    (∀ (st : WaveformBlock) (e : String),
       write st (downloadFilePath output_dir sel.station oid t1) = Except.error e →
       download_waveform t1 t2 (Except.ok st) write output_dir sel oid = false) ∧
    ∀ st : WaveformBlock,
      write st (downloadFilePath output_dir sel.station oid t1) = Except.ok () →
      download_waveform t1 t2 (Except.ok st) write output_dir sel oid = true := by
  refine ⟨fun e => rfl, ?_, ?_⟩
  · intro st e hw
    show (match write st (downloadFilePath output_dir sel.station oid t1) with
      | Except.error _ => false
      | Except.ok _ => true) = false
    rw [hw]
  · intro st hw
    show (match write st (downloadFilePath output_dir sel.station oid t1) with
      | Except.error _ => false
      | Except.ok _ => true) = true
    rw [hw]

/-- Witness for C6: concrete network error, write error and success cases. -/
theorem download_waveform_never_raises_witness :
    demoWriteFail ⟨0⟩ (downloadFilePath "out" "STA" none ⟨2024, 1, 1, 0, 0, 0⟩) =
      Except.error "disk full" ∧
    demoWriteOk ⟨0⟩ (downloadFilePath "out" "STA" none ⟨2024, 1, 1, 0, 0, 0⟩) =
      Except.ok () ∧
    download_waveform ⟨2024, 1, 1, 0, 0, 0⟩ ⟨2024, 1, 1, 0, 10, 0⟩
      (Except.error "timeout") demoWriteOk "out" ⟨"NET", "STA", "00", "HHZ"⟩
      none = false ∧
    download_waveform ⟨2024, 1, 1, 0, 0, 0⟩ ⟨2024, 1, 1, 0, 10, 0⟩
      (Except.ok ⟨0⟩) demoWriteFail "out" ⟨"NET", "STA", "00", "HHZ"⟩
      none = false ∧
    download_waveform ⟨2024, 1, 1, 0, 0, 0⟩ ⟨2024, 1, 1, 0, 10, 0⟩
      (Except.ok ⟨0⟩) demoWriteOk "out" ⟨"NET", "STA", "00", "HHZ"⟩
      none = true := by
  refine ⟨rfl, rfl, ?_, ?_, ?_⟩
  · exact (download_waveform_never_raises ⟨2024, 1, 1, 0, 0, 0⟩ ⟨2024, 1, 1, 0, 10, 0⟩
      demoWriteOk "out" ⟨"NET", "STA", "00", "HHZ"⟩ none).1 "timeout"
  · exact (download_waveform_never_raises ⟨2024, 1, 1, 0, 0, 0⟩ ⟨2024, 1, 1, 0, 10, 0⟩
      demoWriteFail "out" ⟨"NET", "STA", "00", "HHZ"⟩ none).2.1 ⟨0⟩ "disk full" rfl
  · exact (download_waveform_never_raises ⟨2024, 1, 1, 0, 0, 0⟩ ⟨2024, 1, 1, 0, 10, 0⟩
      demoWriteOk "out" ⟨"NET", "STA", "00", "HHZ"⟩ none).2.2 ⟨0⟩ rfl

/-- C7 counterexample: with the window due, a successful fetch and a failing
save-file write, the iteration raises out of `normal_mode` (modelled as
`Except.error`) instead of entering the retry branch — fatal, contrary to
the claim. -/
theorem cursor_write_error_fatal_cex :
    loopStepE 600 5 true false 0 ⟨0, 600, none⟩ =
      Except.error "cannot write save file" := by
  unfold loopStepE
  rw [if_pos (show (⟨0, 600, none⟩ : LoopState).end_time -
    (⟨0, 600, none⟩ : LoopState).start_time ≥ 600 by
      show (600 : ℚ) - 0 ≥ 600; norm_num)]
  rfl

/-- C7 amended: a failure writing the *output* file surfaces as an ordinary
fetch failure (`download_waveform` returns false) handled by the
retry-with-delay policy, with no maximum-retry cutoff (`start` never moves
under any number of failures); a failure writing the *cursor* (save) file,
however, raises an uncaught exception and terminates the loop. -/
theorem write_error_policy (D R : ℚ) (now : Time) (s : LoopState)
    (h : s.end_time - s.start_time ≥ D) :
    loopStepE D R false true now s =
      Except.ok (⟨s.start_time, s.start_time + D, s.saveFile⟩,
        ⟨some (s.start_time, s.start_time + D), none, none, some (R * 60)⟩) ∧
    (∀ nows : List Time,
      (runLoop D R s (nows.map fun n => (false, n))).1.start_time =
        s.start_time) ∧
    loopStepE D R true false now s = Except.error "cannot write save file" := by
  refine ⟨?_, fun nows => (runLoop_false_fix D R nows s).1, ?_⟩
  · rw [loopStepE_write_ok, loopStep_due_failure D R now s h]
  · unfold loopStepE
    rw [if_pos h]
    rfl

/-- Witness for C7 amended at `D = 600`, `R = 5`, state `start = 0,
end = 600`. -/
theorem write_error_policy_witness :
    ((⟨0, 600, none⟩ : LoopState).end_time -
        (⟨0, 600, none⟩ : LoopState).start_time ≥ 600) ∧
    (loopStepE 600 5 false true 700 ⟨0, 600, none⟩ =
      Except.ok (⟨0, 0 + 600, none⟩,
        ⟨some (0, 0 + 600), none, none, some (5 * 60)⟩) ∧
     (∀ nows : List Time,
       (runLoop 600 5 ⟨0, 600, none⟩ (nows.map fun n => (false, n))).1.start_time =
         0) ∧
     loopStepE 600 5 true false 700 ⟨0, 600, none⟩ =
       Except.error "cannot write save file") :=
  ⟨by show (600 : ℚ) - 0 ≥ 600; norm_num,
   write_error_policy 600 5 700 ⟨0, 600, none⟩
     (by show (600 : ℚ) - 0 ≥ 600; norm_num)⟩

/-- C8 counterexample: the process exit status after a failed offline
download equals the exit status after a successful one — both exit 0, so the
status does not distinguish success from failure. -/
theorem offline_exit_status_cex :
    (main_offline false).1 = (main_offline true).1 := rfl

/-- C8 amended: offline mode reports the outcome only through the printed
message; the process exit status is 0 for success and failure alike. -/
theorem offline_exit_always_zero :
    main_offline true = (0, "Offline download successful") ∧
    main_offline false = (0, "Offline download failed") := ⟨rfl, rfl⟩

/-- C9: deterministic filenames — the filename is the fixed `RBF_` start,
the run identifier if truthy else the station, the window start timestamp at
second precision, and the fixed `.msd` extension; so two invocations with
the same `(id_or_station, window.start)` build the same filename, regardless
of `window.end` and every other input. -/
theorem deterministic_filenames (st1 st2 : String) (oid1 oid2 : Option String)
    (t : DateTime) (h : effectiveId st1 oid1 = effectiveId st2 oid2) :
    mkFilename st1 oid1 t = mkFilename st2 oid2 t ∧
    mkFilename st1 oid1 t =
      "RBF_" ++ effectiveId st1 oid1 ++ "_" ++ strftimeYmdHMS t ++ ".msd" ∧
    ∀ output_dir : String,
      downloadFilePath output_dir st1 oid1 t =
        output_dir ++ "/" ++ mkFilename st1 oid1 t := by
  refine ⟨?_, mkFilename_eq st1 oid1 t, fun od => rfl⟩
  rw [mkFilename_eq, mkFilename_eq, h]

/-- Witness for C9: station "AAA" with no run id against station "ZZZ" with
run id "AAA" — same effective identifier, same filename. -/
theorem deterministic_filenames_witness :
    effectiveId "AAA" none = effectiveId "ZZZ" (some "AAA") ∧
    (mkFilename "AAA" none ⟨2024, 1, 2, 3, 4, 5⟩ =
       mkFilename "ZZZ" (some "AAA") ⟨2024, 1, 2, 3, 4, 5⟩ ∧
     mkFilename "AAA" none ⟨2024, 1, 2, 3, 4, 5⟩ =
       "RBF_" ++ effectiveId "AAA" none ++ "_" ++
         strftimeYmdHMS ⟨2024, 1, 2, 3, 4, 5⟩ ++ ".msd" ∧
     ∀ output_dir : String,
       downloadFilePath output_dir "AAA" none ⟨2024, 1, 2, 3, 4, 5⟩ =
         output_dir ++ "/" ++ mkFilename "AAA" none ⟨2024, 1, 2, 3, 4, 5⟩) :=
  ⟨rfl, deterministic_filenames "AAA" "ZZZ" none (some "AAA")
    ⟨2024, 1, 2, 3, 4, 5⟩ rfl⟩

/-- C10: a falsy run identifier is treated like an absent one — for
`optional_id = None` and for `optional_id = ""` the filename falls back to
the station selector; the empty string is never used verbatim. -/
theorem falsy_optional_id_fallback (st : String) (t : DateTime) :
    mkFilename st none t = "RBF_" ++ st ++ "_" ++ strftimeYmdHMS t ++ ".msd" ∧
    mkFilename st (some "") t =
      "RBF_" ++ st ++ "_" ++ strftimeYmdHMS t ++ ".msd" ∧
    mkFilename st (some "") t = mkFilename st none t :=
  ⟨rfl, rfl, rfl⟩

end RBF
